import Mathlib

/-!
# aegis.cpp — `aegis::gateway::objects::message`

A shallow embedding of the inline members of the `message` class declared in
`include/aegis/gateway/objects/message.hpp`, and theorems about its accessors,
mutators and constructors.

The class is embedded as a record with one field per data member, in the order
of the header.  Member functions become functions on that record; the `void`
mutators (`set_content`, `set_channel`, `set_guild`, copy assignment) return
the updated record.

The header is embedded in its default configuration, in which
`AEGIS_DISABLE_ALL_CACHE` is not defined, so the `_user` member and
`has_member()` are present.

The element types `objects::attachment`, `objects::embed`, `objects::reaction`
and `objects::user` are declared in other headers; the record takes them as
type parameters, and every theorem holds for any choice of them.
-/

namespace aegis

/-- Modelled from the spec: the class `aegis::snowflake` is declared in
`aegis/snowflake.hpp`, which is not part of this development.  The spec describes
it as a 64-bit unsigned integer identifier whose default value `0` means
"absent/unset".  No member embedded here does arithmetic on an identifier, so
the 64-bit range plays no role and the value is kept as a natural number;
`!id` and `id != 0` are the integer tests `id == 0` and `id ≠ 0`. -/
abbrev snowflake := Nat

/-- A raw, non-owning C++ pointer (`aegis::channel*`, `aegis::guild*`,
`aegis::user*`, `aegis::core*`): `none` is `nullptr`, `some a` is a pointer to
the object at address `a`. -/
abbrev pointer := Option Nat

/-- The `nullptr` constant. -/
abbrev nullptr : pointer := none

namespace gateway
namespace objects

/-- Enumeration `message_type` (message.hpp, lines 46-56). -/
inductive message_type where
  | Default
  | RecipientAdd
  | RecipientRemove
  | Call
  | ChannelNameChange
  | ChannelIconChange
  | ChannelPinnedMessage
  | GuildMemberJoin
deriving DecidableEq, Repr

/-- Class `message` (message.hpp, lines 58-382): the public data members of
lines 157-170 followed by the private members of lines 371-381, each with the
default member initialiser the header gives it.  Strings and vectors without an
initialiser are default-constructed empty; `nonce` is a default-constructed
snowflake; `author` is a default-constructed `user`, supplied by whoever builds
the record. -/
structure message (attachment embed reaction user : Type) where
  timestamp : String := ""
  edited_timestamp : String := ""
  tts : Bool := false
  mention_everyone : Bool := false
  mentions : List snowflake := []
  mention_roles : List snowflake := []
  attachments : List attachment := []
  embeds : List embed := []
  pinned : Bool := false
  reactions : List reaction := []
  nonce : snowflake := 0
  webhook_id : String := ""
  type : message_type := message_type.Default
  author : user
  _content : String := ""
  _channel : pointer := nullptr
  _guild : pointer := nullptr
  _user : pointer := nullptr
  _core : pointer := nullptr
  _message_id : snowflake := 0
  _channel_id : snowflake := 0
  _guild_id : snowflake := 0
  _author_id : snowflake := 0

namespace message

/-- Constructor `message()` (`= default`, line 128): every member takes its
default member initialiser. -/
def default_ctor {attachment embed reaction user : Type} [Inhabited user] :
    message attachment embed reaction user :=
  { author := default }

/-- Constructor `message(const std::string& content, aegis::channel* _channel,
aegis::guild* _guild)` (lines 67-72): initialises `_content`, `_channel` and
`_guild` from the arguments, every other member from its default member
initialiser. -/
def ctor {attachment embed reaction user : Type} [Inhabited user]
    (content : String) (_channel : pointer) (_guild : pointer) :
    message attachment embed reaction user :=
  { author := default, _content := content, _channel := _channel, _guild := _guild }

/-- Member `set_channel` (lines 113-116): `this->_channel = _channel`. -/
def set_channel {attachment embed reaction user : Type}
    (self : message attachment embed reaction user) (_channel : pointer) :
    message attachment embed reaction user :=
  { self with _channel := _channel }

/-- Member `set_guild` (lines 123-126): `this->_guild = _guild`. -/
def set_guild {attachment embed reaction user : Type}
    (self : message attachment embed reaction user) (_guild : pointer) :
    message attachment embed reaction user :=
  { self with _guild := _guild }

/-- Copy assignment `message& operator=(const message&) = default` (line 129):
the defaulted operator assigns every data member of `rhs` to the corresponding
member of `*this`, in declaration order. -/
def assign {attachment embed reaction user : Type}
    (_self rhs : message attachment embed reaction user) :
    message attachment embed reaction user :=
  { timestamp := rhs.timestamp
    edited_timestamp := rhs.edited_timestamp
    tts := rhs.tts
    mention_everyone := rhs.mention_everyone
    mentions := rhs.mentions
    mention_roles := rhs.mention_roles
    attachments := rhs.attachments
    embeds := rhs.embeds
    pinned := rhs.pinned
    reactions := rhs.reactions
    nonce := rhs.nonce
    webhook_id := rhs.webhook_id
    type := rhs.type
    author := rhs.author
    _content := rhs._content
    _channel := rhs._channel
    _guild := rhs._guild
    _user := rhs._user
    _core := rhs._core
    _message_id := rhs._message_id
    _channel_id := rhs._channel_id
    _guild_id := rhs._guild_id
    _author_id := rhs._author_id }

/-- Member `operator==(const std::string& rhs)` (lines 134-137):
`_content == rhs`. -/
def eq_string {attachment embed reaction user : Type}
    (self : message attachment embed reaction user) (rhs : String) : Bool :=
  self._content == rhs

/-- Member `operator!=(const std::string& rhs)` (lines 140-143):
`!(*this == rhs)`. -/
def ne_string {attachment embed reaction user : Type}
    (self : message attachment embed reaction user) (rhs : String) : Bool :=
  !(eq_string self rhs)

/-- Member `operator==(const char* rhs)` (lines 146-149): `_content == rhs`,
the comparison of a `std::string` with a C string.  The argument is the
character sequence the C string holds. -/
def eq_cstr {attachment embed reaction user : Type}
    (self : message attachment embed reaction user) (rhs : String) : Bool :=
  self._content == rhs

/-- Member `operator!=(const char* rhs)` (lines 152-155):
`!(*this == rhs)`. -/
def ne_cstr {attachment embed reaction user : Type}
    (self : message attachment embed reaction user) (rhs : String) : Bool :=
  !(eq_cstr self rhs)

/-- Member `is_dm` (lines 176-179): `!_guild_id`. -/
def is_dm {attachment embed reaction user : Type}
    (self : message attachment embed reaction user) : Bool :=
  !(self._guild_id != 0)

/-- Member `is_webhook` (lines 194-197): `!webhook_id.empty()`. -/
def is_webhook {attachment embed reaction user : Type}
    (self : message attachment embed reaction user) : Bool :=
  !(self.webhook_id.isEmpty)

/-- Member `get_content` (lines 203-206). -/
def get_content {attachment embed reaction user : Type}
    (self : message attachment embed reaction user) : String :=
  self._content

/-- Member `set_content` (lines 212-215): `_content = content`. -/
def set_content {attachment embed reaction user : Type}
    (self : message attachment embed reaction user) (content : String) :
    message attachment embed reaction user :=
  { self with _content := content }

/-- Member `get_id` (lines 221-224). -/
def get_id {attachment embed reaction user : Type}
    (self : message attachment embed reaction user) : snowflake :=
  self._message_id

/-- Member `get_channel_id` (lines 230-233). -/
def get_channel_id {attachment embed reaction user : Type}
    (self : message attachment embed reaction user) : snowflake :=
  self._channel_id

/-- Member `get_guild_id` (lines 239-242). -/
def get_guild_id {attachment embed reaction user : Type}
    (self : message attachment embed reaction user) : snowflake :=
  self._guild_id

/-- Member `get_author_id` (lines 248-251). -/
def get_author_id {attachment embed reaction user : Type}
    (self : message attachment embed reaction user) : snowflake :=
  self._author_id

/-- Member `has_guild` (lines 259-262):
`_guild != nullptr || _guild_id != 0`. -/
def has_guild {attachment embed reaction user : Type}
    (self : message attachment embed reaction user) : Bool :=
  self._guild != nullptr || self._guild_id != 0

/-- Member `has_channel` (lines 268-271):
`_channel != nullptr || _channel_id != 0`. -/
def has_channel {attachment embed reaction user : Type}
    (self : message attachment embed reaction user) : Bool :=
  self._channel != nullptr || self._channel_id != 0

/-- Member `has_member` (lines 278-281):
`_user != nullptr || _author_id != 0`. -/
def has_member {attachment embed reaction user : Type}
    (self : message attachment embed reaction user) : Bool :=
  self._user != nullptr || self._author_id != 0

/-- Member `get_related_ids` (lines 359-362): the tuple
`{ _channel_id, _guild_id, _message_id, _author_id }`. -/
def get_related_ids {attachment embed reaction user : Type}
    (self : message attachment embed reaction user) :
    snowflake × snowflake × snowflake × snowflake :=
  (self._channel_id, self._guild_id, self._message_id, self._author_id)

end message

/-- A message with the given message identity, every other member at its
default; the element types are instantiated with `Unit`. -/
def sample_with_id (id : snowflake) : message Unit Unit Unit Unit :=
  { author := (), _message_id := id }

/-- A message with the given guild pointer and guild identity, every other
member at its default; the element types are instantiated with `Unit`. -/
def sample_with_guild (_guild : pointer) (_guild_id : snowflake) :
    message Unit Unit Unit Unit :=
  { author := (), _guild := _guild, _guild_id := _guild_id }

/-- A message with the given channel pointer and channel identity, every other
member at its default; the element types are instantiated with `Unit`. -/
def sample_with_channel (_channel : pointer) (_channel_id : snowflake) :
    message Unit Unit Unit Unit :=
  { author := (), _channel := _channel, _channel_id := _channel_id }

/-- A message with the given webhook id and author identity, every other member
at its default; the element types are instantiated with `Unit`. -/
def sample_with_webhook (webhook_id : String) (_author_id : snowflake) :
    message Unit Unit Unit Unit :=
  { author := (), webhook_id := webhook_id, _author_id := _author_id }

/-- A message with the given content and message identity, every other member
at its default; the element types are instantiated with `Unit`. -/
def sample_with_content (_content : String) (_message_id : snowflake) :
    message Unit Unit Unit Unit :=
  { author := (), _content := _content, _message_id := _message_id }

/-! ## Theorems -/

/-- `std::string::empty()` is false exactly on the strings other than "". -/
theorem not_isEmpty_iff (s : String) : s.isEmpty = false ↔ s ≠ "" := by
  rw [ne_eq, ← String.isEmpty_iff]
  simp

/-- C1: for every message state, `is_dm()` returns true if and only if the
stored guild id equals 0, and two messages that differ only in the guild
pointer (whatever the two pointers are, null or not) give the same `is_dm()`
result. -/
theorem is_dm_iff_guild_id_zero {A E R U : Type} (m : message A E R U) :
    (m.is_dm = true ↔ m._guild_id = 0) ∧
    (m.is_dm = true ↔ m.get_guild_id = 0) ∧
    (∀ p q : pointer,
      ({ m with _guild := p } : message A E R U).is_dm
        = ({ m with _guild := q } : message A E R U).is_dm) ∧
    (∀ p : pointer, (m.set_guild p).is_dm = m.is_dm) := by
  refine ⟨?_, ?_, ?_, ?_⟩
  · simp [message.is_dm]
  · simp [message.is_dm, message.get_guild_id]
  · intro p q; rfl
  · intro p; rfl

/-- C2: for every message, `get_related_ids()` is the 4-tuple
(`get_channel_id()`, `get_guild_id()`, `get_id()`, `get_author_id()`) of that
same message, in this order; in particular a component whose getter gives 0 is
returned as 0. -/
theorem get_related_ids_eq {A E R U : Type} (m : message A E R U) :
    m.get_related_ids
      = (m.get_channel_id, m.get_guild_id, m.get_id, m.get_author_id) := by
  rfl

/-- C3: for every message, `has_guild()` is true exactly when the guild id is
non-zero or a guild pointer is attached, `has_channel()` exactly when the
channel id is non-zero or a channel pointer is attached, `has_member()` exactly
when the author id is non-zero or a user pointer is attached; hence a message
with a non-zero channel id and no channel pointer has `has_channel()` true. -/
theorem has_guild_channel_member_iff {A E R U : Type} (m : message A E R U) :
    (m.has_guild = true ↔ (m._guild_id ≠ 0 ∨ m._guild ≠ nullptr)) ∧
    (m.has_channel = true ↔ (m._channel_id ≠ 0 ∨ m._channel ≠ nullptr)) ∧
    (m.has_member = true ↔ (m._author_id ≠ 0 ∨ m._user ≠ nullptr)) ∧
    (m._channel_id ≠ 0 → m._channel = nullptr → m.has_channel = true) := by
  refine ⟨?_, ?_, ?_, ?_⟩
  · simp [message.has_guild, or_comm]
  · simp [message.has_channel, or_comm]
  · simp [message.has_member, or_comm]
  · intro h _
    simp [message.has_channel, h]

/-- Witness for C3 at a message with channel id 5 and no channel pointer. -/
theorem has_guild_channel_member_iff_witness :
    (sample_with_channel nullptr 5)._channel_id ≠ 0 ∧
    (sample_with_channel nullptr 5)._channel = nullptr ∧
    (sample_with_channel nullptr 5).has_channel = true :=
  ⟨by decide, rfl,
    (has_guild_channel_member_iff (sample_with_channel nullptr 5)).2.2.2
      (by decide) rfl⟩

/-- C4: for every message, `is_webhook()` is true if and only if the
`webhook_id` string is non-empty; replacing the author id and the embedded
author snapshot by any other values leaves the result unchanged; a message
whose `webhook_id` is "123" is a webhook message. -/
theorem is_webhook_iff {A E R U : Type} (m : message A E R U) :
    (m.is_webhook = true ↔ m.webhook_id ≠ "") ∧
    (∀ (a : snowflake) (u : U),
      ({ m with _author_id := a, author := u } : message A E R U).is_webhook
        = m.is_webhook) ∧
    (m.webhook_id = "123" → m.is_webhook = true) := by
  refine ⟨?_, ?_, ?_⟩
  · simp [message.is_webhook, not_isEmpty_iff]
  · intro a u; rfl
  · intro h
    have hne : m.webhook_id ≠ "" := by rw [h]; decide
    simpa [message.is_webhook, not_isEmpty_iff] using hne

/-- Witness for C4 at messages with webhook id "123", one with author id 0 and
one with author id 42. -/
theorem is_webhook_iff_witness :
    (sample_with_webhook "123" 0).webhook_id = "123" ∧
    (sample_with_webhook "123" 0).is_webhook = true ∧
    (sample_with_webhook "123" 42).is_webhook = true :=
  ⟨rfl, (is_webhook_iff (sample_with_webhook "123" 0)).2.2 rfl,
    (is_webhook_iff (sample_with_webhook "123" 42)).2.2 rfl⟩

/-- A message for which `has_guild()` is false has `is_dm()` true: both the
guild pointer and the guild id are then absent. -/
theorem is_dm_of_not_has_guild {A E R U : Type} (m : message A E R U)
    (h : m.has_guild = false) : m.is_dm = true := by
  simp only [message.has_guild, Bool.or_eq_false_iff] at h
  simpa [message.is_dm] using h.2

/-- C5, as stated, fails for copy assignment: the message with identity 1 has a
non-zero `get_id()`, and after copy assignment from the message with identity 2
its `get_id()` is 2, not 1. -/
theorem get_id_assign_counterexample :
    (sample_with_id 1).get_id ≠ 0 ∧
    ((sample_with_id 1).assign (sample_with_id 2)).get_id = 2 ∧
    ((sample_with_id 1).assign (sample_with_id 2)).get_id
      ≠ (sample_with_id 1).get_id := by
  decide

/-- C5, amended: for every message `m` with `get_id() != 0`, `set_content`,
`set_channel` and `set_guild` leave `get_id()` unchanged; after copy assignment
from a message `o`, `get_id()` of `m` is `o.get_id()`, so it is unchanged if and
only if `o.get_id()` equals `m.get_id()`. -/
theorem get_id_preserved {A E R U : Type} (m o : message A E R U)
    (c : String) (p q : pointer) (_h : m.get_id ≠ 0) :
    (m.set_content c).get_id = m.get_id ∧
    (m.set_channel p).get_id = m.get_id ∧
    (m.set_guild q).get_id = m.get_id ∧
    (m.assign o).get_id = o.get_id ∧
    ((m.assign o).get_id = m.get_id ↔ o.get_id = m.get_id) :=
  ⟨rfl, rfl, rfl, rfl, Iff.rfl⟩

/-- Witness for C5 (amended) at the message with identity 1, assigned from the
message with identity 2. -/
theorem get_id_preserved_witness :
    (sample_with_id 1).get_id ≠ 0 ∧
    ((sample_with_id 1).set_content "edited").get_id = 1 ∧
    ((sample_with_id 1).set_channel (some 8)).get_id = 1 ∧
    ((sample_with_id 1).set_guild nullptr).get_id = 1 ∧
    ((sample_with_id 1).assign (sample_with_id 2)).get_id = 2 :=
  have h := get_id_preserved (sample_with_id 1) (sample_with_id 2) "edited"
    (some 8) nullptr (by decide)
  ⟨by decide, h.1, h.2.1, h.2.2.1, h.2.2.2.1⟩

/-- C6, as stated, fails for the result `false`: it is not the case that for
each result `b` of `has_guild()` there is a message giving `b` with `is_dm()`
true and another giving `b` with `is_dm()` false. -/
theorem has_guild_both_results_counterexample :
    ¬ (∀ b : Bool,
        (∃ m : message Unit Unit Unit Unit, m.has_guild = b ∧ m.is_dm = true) ∧
        (∃ m : message Unit Unit Unit Unit, m.has_guild = b ∧ m.is_dm = false)) := by
  intro h
  obtain ⟨_, m, hg, hd⟩ := h false
  rw [is_dm_of_not_has_guild m hg] at hd
  exact Bool.noConfusion hd

/-- C6, amended: the result `true` of `has_guild()` does not determine whether
the message is a DM (there is a message with `has_guild()` true and `is_dm()`
true, and one with `has_guild()` true and `is_dm()` false); the result `false`
does: there is a message with `has_guild()` false and `is_dm()` true, and every
message with `has_guild()` false has `is_dm()` true. -/
theorem has_guild_vs_is_dm {A E R U : Type} [Inhabited U] :
    (∃ m : message A E R U, m.has_guild = true ∧ m.is_dm = true) ∧
    (∃ m : message A E R U, m.has_guild = true ∧ m.is_dm = false) ∧
    (∃ m : message A E R U, m.has_guild = false ∧ m.is_dm = true) ∧
    (∀ m : message A E R U, m.has_guild = false → m.is_dm = true) := by
  refine ⟨⟨{ author := default, _guild := some 1 }, ?_, ?_⟩,
    ⟨{ author := default, _guild_id := 1 }, ?_, ?_⟩,
    ⟨message.default_ctor, ?_, ?_⟩, ?_⟩
  · simp [message.has_guild]
  · simp [message.is_dm]
  · simp [message.has_guild]
  · simp [message.is_dm]
  · simp [message.has_guild, message.default_ctor]
  · simp [message.is_dm, message.default_ctor]
  · exact fun m h => is_dm_of_not_has_guild m h

/-- Witness for C6 (amended) at the message with no guild pointer and guild
id 0. -/
theorem has_guild_vs_is_dm_witness :
    (sample_with_guild nullptr 0).has_guild = false ∧
    (sample_with_guild nullptr 0).is_dm = true :=
  ⟨by decide,
    (has_guild_vs_is_dm (A := Unit) (E := Unit) (R := Unit) (U := Unit)).2.2.2
      (sample_with_guild nullptr 0) (by decide)⟩

/-- C7: for every message `m` and string `s`, for both the `std::string` and
the `const char*` overloads, `m == s` is true if and only if `get_content()`
equals `s`, and `m != s` is the negation of `m == s`; a message `n` with the
same content as `m`, whatever its other fields, gives the same results. -/
theorem eq_string_iff_content {A E R U : Type} (m : message A E R U) (s : String) :
    (m.eq_string s = true ↔ m.get_content = s) ∧
    (m.ne_string s = !(m.eq_string s)) ∧
    (m.ne_string s = true ↔ m.get_content ≠ s) ∧
    (m.eq_cstr s = true ↔ m.get_content = s) ∧
    (m.ne_cstr s = !(m.eq_cstr s)) ∧
    (m.ne_cstr s = true ↔ m.get_content ≠ s) ∧
    (∀ n : message A E R U, n.get_content = m.get_content →
      n.eq_string s = m.eq_string s ∧ n.ne_string s = m.ne_string s ∧
      n.eq_cstr s = m.eq_cstr s ∧ n.ne_cstr s = m.ne_cstr s) := by
  refine ⟨?_, rfl, ?_, ?_, rfl, ?_, ?_⟩
  · simp [message.eq_string, message.get_content]
  · simp [message.ne_string, message.eq_string, message.get_content]
  · simp [message.eq_cstr, message.get_content]
  · simp [message.ne_cstr, message.eq_cstr, message.get_content]
  · intro n hn
    simp only [message.get_content] at hn
    simp [message.ne_string, message.eq_string, message.ne_cstr, message.eq_cstr, hn]

/-- Witness for C7: two messages with content "ping" and different identities
compare alike with "ping". -/
theorem eq_string_iff_content_witness :
    (sample_with_content "ping" 9).get_content
      = (sample_with_content "ping" 3).get_content ∧
    (sample_with_content "ping" 9).eq_string "ping"
      = (sample_with_content "ping" 3).eq_string "ping" ∧
    (sample_with_content "ping" 3).eq_string "ping" = true :=
  have h := eq_string_iff_content (sample_with_content "ping" 3) "ping"
  ⟨rfl, (h.2.2.2.2.2.2 (sample_with_content "ping" 9) rfl).1, h.1.2 rfl⟩

/-- C8: for every message `m` and string `c`, after `set_content(c)`
`get_content()` returns exactly `c`, while `get_related_ids()`, `is_dm()`,
`is_webhook()`, `has_guild()`, `has_channel()`, `has_member()` and every public
data field are the same as before the call. -/
theorem set_content_frame {A E R U : Type} (m : message A E R U) (c : String) :
    (m.set_content c).get_content = c ∧
    (m.set_content c).get_related_ids = m.get_related_ids ∧
    (m.set_content c).is_dm = m.is_dm ∧
    (m.set_content c).is_webhook = m.is_webhook ∧
    (m.set_content c).has_guild = m.has_guild ∧
    (m.set_content c).has_channel = m.has_channel ∧
    (m.set_content c).has_member = m.has_member ∧
    (m.set_content c).timestamp = m.timestamp ∧
    (m.set_content c).edited_timestamp = m.edited_timestamp ∧
    (m.set_content c).tts = m.tts ∧
    (m.set_content c).mention_everyone = m.mention_everyone ∧
    (m.set_content c).mentions = m.mentions ∧
    (m.set_content c).mention_roles = m.mention_roles ∧
    (m.set_content c).attachments = m.attachments ∧
    (m.set_content c).embeds = m.embeds ∧
    (m.set_content c).pinned = m.pinned ∧
    (m.set_content c).reactions = m.reactions ∧
    (m.set_content c).nonce = m.nonce ∧
    (m.set_content c).webhook_id = m.webhook_id ∧
    (m.set_content c).type = m.type ∧
    (m.set_content c).author = m.author :=
  ⟨rfl, rfl, rfl, rfl, rfl, rfl, rfl, rfl, rfl, rfl, rfl, rfl, rfl, rfl, rfl,
    rfl, rfl, rfl, rfl, rfl, rfl⟩

/-- C9: a message built by the constructor `message(content, channel, guild)`
has `get_content()` equal to `content` and `get_related_ids()` equal to
(0, 0, 0, 0) whatever pointers are passed; `is_dm()` is true, also when the
guild pointer is non-null; `has_guild()` is true iff the guild pointer is
non-null and `has_channel()` is true iff the channel pointer is non-null. -/
theorem ctor_content_channel_guild {A E R U : Type} [Inhabited U]
    (content : String) (_channel _guild : pointer) :
    (message.ctor content _channel _guild : message A E R U).get_content = content ∧
    (message.ctor content _channel _guild : message A E R U).get_related_ids
      = (0, 0, 0, 0) ∧
    (message.ctor content _channel _guild : message A E R U).is_dm = true ∧
    ((message.ctor content _channel _guild : message A E R U).has_guild = true
      ↔ _guild ≠ nullptr) ∧
    ((message.ctor content _channel _guild : message A E R U).has_channel = true
      ↔ _channel ≠ nullptr) := by
  refine ⟨rfl, rfl, rfl, ?_, ?_⟩
  · simp [message.has_guild, message.ctor]
  · simp [message.has_channel, message.ctor]

end objects
end gateway
end aegis
